import Mathlib

/-!
Verification development for the wallet ledger / balance-consistency subsystem
and the model-layer validators of the exchange platform repository.

The repository's source contains the Sequelize model declarations (`wallet`,
`page`, `supportTicket`, ...).  The balance-ledger engine itself (Account
Store, Ledger, Balance Engine, Reservation Manager) is described only by the
specification; its operations are modelled here from the spec's words.  The
`page` and `supportTicket` validators are embedded directly from the source.
All amounts are modelled as `Int` (signed, exact).
-/

/-- Wallet type enumeration, from the `wallet` model's
`DataTypes.ENUM("FIAT", "SPOT", "ECO", "FUTURES")` column. -/
inductive WalletType
  | FIAT
  | SPOT
  | ECO
  | FUTURES
  deriving DecidableEq

/-- Parsing of the wallet-type string against the enumerated set, mirroring
the `isIn` validator of the `wallet` model's `type` column. -/
def WalletType.ofString : String → Option WalletType
  | "FIAT" => some WalletType.FIAT
  | "SPOT" => some WalletType.SPOT
  | "ECO" => some WalletType.ECO
  | "FUTURES" => some WalletType.FUTURES
  | _ => none

/-- Ledger entry kinds.  Modelled from the spec: `kind` (DEPOSIT, WITHDRAWAL,
TRADE, FEE, ADJUSTMENT, TRANSFER_IN, TRANSFER_OUT). -/
inductive EntryKind
  | DEPOSIT
  | WITHDRAWAL
  | TRADE
  | FEE
  | ADJUSTMENT
  | TRANSFER_IN
  | TRANSFER_OUT
  deriving DecidableEq

/-- An account of the Account Store.  Modelled from the spec: identified by
`(userId, currency, walletType)`, with `balance` (available funds), `inOrder`
(reserved funds) and `status` (active/frozen), matching the `wallet` model's
columns. -/
structure Account where
  userId : String
  currency : String
  walletType : WalletType
  balance : Int
  inOrder : Int
  status : Bool
  deriving DecidableEq

/-- A draft submitted to the Balance Engine.  Modelled from the spec: carries
amount, kind, idempotencyKey and the reservation flag. -/
structure Draft where
  idempotencyKey : String
  amount : Int
  kind : EntryKind
  reservation : Bool
  deriving DecidableEq

/-- A committed ledger entry.  Modelled from the spec: immutable once
committed, tied to a unique idempotency key. -/
structure LedgerEntry where
  idempotencyKey : String
  amount : Int
  kind : EntryKind
  reservation : Bool
  deriving DecidableEq

/-- Error taxonomy of the engine.  Modelled from the spec's section 7. -/
inductive BalanceError
  | ValidationError
  | InsufficientFunds
  | InsufficientReservation
  | DuplicateEntry
  deriving DecidableEq

/-- Whether an idempotency key is already recorded in a ledger. -/
def keyInLedger (l : List LedgerEntry) (k : String) : Bool :=
  l.any (fun e => decide (e.idempotencyKey = k))

/-- State of the Balance Engine as seen by a single account: the account's
current record and the ledger of committed entries against it. -/
structure EngineState where
  account : Account
  ledger : List LedgerEntry
  deriving DecidableEq

/-- The ledger entry committed for a draft. -/
def entryOfDraft (d : Draft) : LedgerEntry :=
  { idempotencyKey := d.idempotencyKey, amount := d.amount, kind := d.kind,
    reservation := d.reservation }

/-- Modelled from the spec: Balance Engine operation `applyEntry` (section
4.3), serialized per account.  Steps: idempotency check (already-applied keys
return the current state unchanged), zero-amount validation, candidate
computation on `balance` or `inOrder` according to the reservation flag,
`InsufficientFunds` rejection when a debit would drive the candidate negative
(no ledger trace, state unchanged), otherwise atomic append-and-update. -/
def applyEntry (s : EngineState) (d : Draft) :
    EngineState × Except BalanceError Account :=
  if keyInLedger s.ledger d.idempotencyKey then
    (s, Except.ok s.account)
  else if d.amount = 0 then
    (s, Except.error BalanceError.ValidationError)
  else if d.reservation then
    if d.amount < 0 ∧ s.account.inOrder + d.amount < 0 then
      (s, Except.error BalanceError.InsufficientFunds)
    else
      ({ account := { s.account with inOrder := s.account.inOrder + d.amount },
         ledger := s.ledger ++ [entryOfDraft d] },
       Except.ok { s.account with inOrder := s.account.inOrder + d.amount })
  else
    if d.amount < 0 ∧ s.account.balance + d.amount < 0 then
      (s, Except.error BalanceError.InsufficientFunds)
    else
      ({ account := { s.account with balance := s.account.balance + d.amount },
         ledger := s.ledger ++ [entryOfDraft d] },
       Except.ok { s.account with balance := s.account.balance + d.amount })

/-- Folding a sequence of drafts through the engine, keeping the state
reached after each call (results are reported to callers and do not affect
the fold). -/
def applyAll (s : EngineState) (ds : List Draft) : EngineState :=
  ds.foldl (fun t d => (applyEntry t d).1) s

/-- The Account Store: the collection of account records. -/
structure Store where
  accounts : List Account
  deriving DecidableEq

/-- Lookup of an account by its `(userId, currency, walletType)` triple,
mirroring the unique `walletUserIdCurrencyTypeKey` index of the `wallet`
model. -/
def findAccount (st : Store) (u c : String) (w : WalletType) : Option Account :=
  st.accounts.find?
    (fun a => decide (a.userId = u ∧ a.currency = c ∧ a.walletType = w))

/-- Modelled from the spec: Account Store operation `getOrCreate` (section
4.1): returns the existing account for the triple or creates one with zero
balances; fails with `ValidationError` if `currency` is empty or the wallet
type string is not in the enumerated set (the `wallet` model's `notEmpty`
and `isIn` validators). -/
def getOrCreate (st : Store) (u c wt : String) :
    Except BalanceError (Store × Account) :=
  if c = "" then Except.error BalanceError.ValidationError
  else
    match WalletType.ofString wt with
    | none => Except.error BalanceError.ValidationError
    | some w =>
      match findAccount st u c w with
      | some a => Except.ok (st, a)
      | none =>
        let a : Account :=
          { userId := u, currency := c, walletType := w,
            balance := 0, inOrder := 0, status := true }
        Except.ok ({ accounts := st.accounts ++ [a] }, a)

/-- Store-level operations.  Modelled from the spec: creation via
`getOrCreate` is the only operation that adds accounts; the Balance Engine
only rewrites the balance fields of an existing account, never its key
triple. -/
inductive StoreOp
  | createOp (u c wt : String)
  | balanceOp (u c : String) (w : WalletType) (newBal newIO : Int)

/-- The Balance Engine's write-back to the store: the account matching the
triple gets its balance fields rewritten; its key fields never change. -/
def rewriteBalances (u c : String) (w : WalletType) (newBal newIO : Int)
    (a : Account) : Account :=
  if a.userId = u ∧ a.currency = c ∧ a.walletType = w then
    { a with balance := newBal, inOrder := newIO }
  else a

/-- One store-level step. -/
def runStoreOp (st : Store) (op : StoreOp) : Store :=
  match op with
  | StoreOp.createOp u c wt =>
    match getOrCreate st u c wt with
    | Except.ok (st', _) => st'
    | Except.error _ => st
  | StoreOp.balanceOp u c w newBal newIO =>
    { accounts := st.accounts.map (rewriteBalances u c w newBal newIO) }

/-- Folding a sequence of store-level operations. -/
def runStoreOps (st : Store) (ops : List StoreOp) : Store :=
  ops.foldl runStoreOp st

/-- Distinct accounts of the store carry distinct
`(userId, currency, walletType)` triples. -/
def UniqueTriples (st : Store) : Prop :=
  st.accounts.Pairwise (fun a b =>
    ¬(a.userId = b.userId ∧ a.currency = b.currency ∧
      a.walletType = b.walletType))

/-- State of a transfer between two fixed accounts: the source, the
destination and the shared ledger. -/
structure TransferState where
  src : Account
  dst : Account
  ledger : List LedgerEntry
  deriving DecidableEq

/-- Modelled from the spec: `applyTransfer(fromDraft, toDraft)` (section
4.3): a transfer is two ledger entries, TRANSFER_OUT on the source and
TRANSFER_IN on the destination, of opposite amounts, with distinct fresh
idempotency keys, applied under a single atomic scope; when the destination
credit cannot be validated (destination frozen) or the source debit would
overdraw, nothing commits and the state is unchanged. -/
def applyTransfer (st : TransferState) (fd td : Draft) :
    TransferState × Except BalanceError (Account × Account) :=
  if keyInLedger st.ledger fd.idempotencyKey ∨
     keyInLedger st.ledger td.idempotencyKey ∨
     fd.idempotencyKey = td.idempotencyKey then
    (st, Except.error BalanceError.DuplicateEntry)
  else if fd.kind ≠ EntryKind.TRANSFER_OUT ∨ td.kind ≠ EntryKind.TRANSFER_IN ∨
          fd.reservation = true ∨ td.reservation = true ∨
          ¬fd.amount < 0 ∨ td.amount ≠ -fd.amount then
    (st, Except.error BalanceError.ValidationError)
  else if st.dst.status = false then
    (st, Except.error BalanceError.ValidationError)
  else if st.src.balance + fd.amount < 0 then
    (st, Except.error BalanceError.InsufficientFunds)
  else
    ({ src := { st.src with balance := st.src.balance + fd.amount },
       dst := { st.dst with balance := st.dst.balance + td.amount },
       ledger := st.ledger ++ [entryOfDraft fd, entryOfDraft td] },
     Except.ok ({ st.src with balance := st.src.balance + fd.amount },
                { st.dst with balance := st.dst.balance + td.amount }))

/-- Modelled from the spec: Reservation Manager `reserve` (section 4.4): a
debit to `balance` and a credit to `inOrder` of equal magnitude, applied
atomically; the amount is positive; fails with `InsufficientFunds` when
`balance` would go negative. -/
def reserve (a : Account) (amt : Int) : Except BalanceError Account :=
  if amt ≤ 0 then Except.error BalanceError.ValidationError
  else if a.balance - amt < 0 then Except.error BalanceError.InsufficientFunds
  else Except.ok { a with balance := a.balance - amt, inOrder := a.inOrder + amt }

/-- Modelled from the spec: Reservation Manager `release` (section 4.4):
credit back to `balance`, debit from `inOrder`; fails with
`InsufficientReservation` when `inOrder` would go negative. -/
def release (a : Account) (amt : Int) : Except BalanceError Account :=
  if amt ≤ 0 then Except.error BalanceError.ValidationError
  else if a.inOrder - amt < 0 then
    Except.error BalanceError.InsufficientReservation
  else Except.ok { a with balance := a.balance + amt, inOrder := a.inOrder - amt }

/-- Modelled from the spec: Reservation Manager `settle` (section 4.4):
debit from `inOrder`, no credit elsewhere; fails with
`InsufficientReservation` when `inOrder` would go negative. -/
def settle (a : Account) (amt : Int) : Except BalanceError Account :=
  if amt ≤ 0 then Except.error BalanceError.ValidationError
  else if a.inOrder - amt < 0 then
    Except.error BalanceError.InsufficientReservation
  else Except.ok { a with inOrder := a.inOrder - amt }

/-- A `page` record, reduced to the fields the `isHome` validator of
`page.initModel` reads: the primary key, the `isHome` flag and the
soft-deletion marker (`deletedAt`, the model is `paranoid`). -/
structure PageRec where
  id : Nat
  isHome : Bool
  deleted : Bool
  deriving DecidableEq

/-- `page.findOne(\x7b where: \x7b id \x7d \x7d)` under the paranoid model:
the non-soft-deleted record with the given primary key. -/
def findLive (db : List PageRec) (i : Nat) : Option PageRec :=
  db.find? (fun p => !p.deleted && decide (p.id = i))

/-- The validator's second query: `page.findOne` with
`isHome: true`, `id ≠ this.id` (when the instance has an id) and
`deletedAt: null`.  `true` means some other non-deleted home page exists. -/
def otherHomeExists (db : List PageRec) (selfId : Option Nat) : Bool :=
  db.any (fun p =>
    p.isHome && !p.deleted &&
      (match selfId with
       | some i => !decide (p.id = i)
       | none => true))

/-- The `isUniqueHome` validator of `page.initModel`: when the value being
saved is `true`, first allow the save if this record is already the home
page in the database, otherwise reject exactly when some other non-deleted
home page exists; a `false` value always passes.  `true` means validation
passes. -/
def isUniqueHome (db : List PageRec) (selfId : Option Nat) (value : Bool) :
    Bool :=
  if value then
    match selfId with
    | some i =>
      match findLive db i with
      | some existing =>
        if existing.isHome then true else !otherHomeExists db (some i)
      | none => !otherHomeExists db (some i)
    | none => !otherHomeExists db none
  else true

/-- Replacing (or inserting) the record with the saved one, keyed by id. -/
def upsertPage (db : List PageRec) (r : PageRec) : List PageRec :=
  db.filter (fun p => !decide (p.id = r.id)) ++ [r]

/-- Saving a page through validation: the save commits only when
`isUniqueHome` passes, otherwise the validator's error is raised. -/
def savePage (db : List PageRec) (r : PageRec) :
    Except String (List PageRec) :=
  if isUniqueHome db (some r.id) r.isHome then Except.ok (upsertPage db r)
  else Except.error ("isHome: Only one page can be marked as home page")

/-- Number of non-deleted pages flagged as home page. -/
def homeCount (db : List PageRec) : Nat :=
  (db.filter (fun p => p.isHome && !p.deleted)).length

/-- A JavaScript runtime value, as far as the `supportTicket` accessors
inspect one: null, undefined, booleans, numbers, strings, arrays and plain
objects (a list of named fields). -/
inductive JSVal where
  | vnull
  | vundef
  | vbool (b : Bool)
  | vnum (n : Int)
  | vstr (s : String)
  | varr (xs : List JSVal)
  | vobj (fields : List (String × JSVal))

/-- JavaScript truthiness, as used by `if (!value)` and by the `item.time`
check: null, undefined, `false`, `0` and the empty string are falsy. -/
def truthy : JSVal → Bool
  | JSVal.vnull => false
  | JSVal.vundef => false
  | JSVal.vbool b => b
  | JSVal.vnum n => decide (n ≠ 0)
  | JSVal.vstr s => decide (s ≠ "")
  | JSVal.varr _ => true
  | JSVal.vobj _ => true

/-- Property access on an object's field list; a missing property reads as
`undefined`. -/
def getField (fields : List (String × JSVal)) (k : String) : JSVal :=
  match fields.find? (fun p => decide (p.1 = k)) with
  | some p => p.2
  | none => JSVal.vundef

/-- Whether a value is a string (JavaScript `typeof v === "string"`). -/
def isStringVal : JSVal → Bool
  | JSVal.vstr _ => true
  | _ => false

/-- The `messages` getter of `supportTicket.initModel`: a falsy stored value
reads as `[]`; an array reads as itself; a string is JSON-parsed and reads
as the parsed array, or `[]` when parsing fails or yields a non-array; any
other value reads as `[]`.  `JSON.parse` is the platform's parser, passed in
as a parameter. -/
def messagesGet (parse : String → Option JSVal) (stored : JSVal) :
    List JSVal :=
  if truthy stored = false then []
  else
    match stored with
    | JSVal.varr xs => xs
    | JSVal.vstr s =>
      match parse s with
      | some (JSVal.varr xs) => xs
      | _ => []
    | _ => []

/-- The per-element check of the `messages` setter: the element is an object
whose `type` and `text` properties are strings and whose `time` property is
truthy.  (In the source, a non-object element — or a null element, whose
property access throws — fails the `every` callback; both failure modes
surface as a thrown error, collapsed here into rejection.) -/
def validMessage : JSVal → Bool
  | JSVal.vobj fields =>
    isStringVal (getField fields ("type")) &&
    isStringVal (getField fields ("text")) &&
    truthy (getField fields ("time"))
  | _ => false

/-- The `messages` setter of `supportTicket.initModel`: stores the value
when it is an array whose every element passes `validMessage`, or when it is
null/undefined; throws the model's error on any other input. -/
def messagesSet (v : JSVal) : Except String JSVal :=
  match v with
  | JSVal.varr xs =>
    if xs.all validMessage then Except.ok (JSVal.varr xs)
    else
      Except.error
        ("messages must be an array of message objects or null/undefined")
  | JSVal.vnull => Except.ok JSVal.vnull
  | JSVal.vundef => Except.ok JSVal.vundef
  | _ =>
    Except.error
      ("messages must be an array of message objects or null/undefined")

/-- Single-step preservation of the non-negativity invariant by
`applyEntry`. -/
theorem applyEntry_step_nonneg (s : EngineState) (d : Draft)
    (hb : 0 ≤ s.account.balance) (ho : 0 ≤ s.account.inOrder) :
    0 ≤ (applyEntry s d).1.account.balance ∧
    0 ≤ (applyEntry s d).1.account.inOrder := by
  unfold applyEntry
  split_ifs with h1 h2 h3 h4 h5 <;> simp_all <;> omega

/-- C1: for every account and every sequence of `applyEntry` calls, at every
point after each call the account's balance is nonnegative and its `inOrder`
is nonnegative (the sequence of drafts is arbitrary, so every intermediate
point is an instance). -/
theorem applyAll_nonneg (s : EngineState) (ds : List Draft)
    (hb : 0 ≤ s.account.balance) (ho : 0 ≤ s.account.inOrder) :
    0 ≤ (applyAll s ds).account.balance ∧
    0 ≤ (applyAll s ds).account.inOrder := by
  induction ds generalizing s with
  | nil => exact ⟨hb, ho⟩
  | cons d ds ih =>
    have h := applyEntry_step_nonneg s d hb ho
    simpa [applyAll, List.foldl_cons] using
      ih ((applyEntry s d).1) h.1 h.2

/-- A call whose idempotency key is already in the ledger is a no-op that
returns the current account state. -/
theorem applyEntry_replay (s : EngineState) (d : Draft)
    (h : keyInLedger s.ledger d.idempotencyKey = true) :
    applyEntry s d = (s, Except.ok s.account) := by
  unfold applyEntry
  simp [h]

/-- A successful fresh-key `applyEntry` commits exactly the draft's entry and
leaves the returned account as the new state. -/
theorem applyEntry_fresh_ok (s : EngineState) (d : Draft) (a : Account)
    (hfresh : keyInLedger s.ledger d.idempotencyKey = false)
    (hok : (applyEntry s d).2 = Except.ok a) :
    (applyEntry s d).1 =
      { account := a, ledger := s.ledger ++ [entryOfDraft d] } := by
  unfold applyEntry at hok ⊢
  simp only [hfresh, Bool.false_eq_true, if_false] at hok ⊢
  split_ifs at hok ⊢ <;> simp_all

/-- C2: applying the same draft twice commits exactly one ledger entry and
one balance change; the second call is a no-op on state and returns the same
resulting account state as the first. -/
theorem applyEntry_idempotent (s : EngineState) (d : Draft) (a : Account)
    (hfresh : keyInLedger s.ledger d.idempotencyKey = false)
    (hok : (applyEntry s d).2 = Except.ok a) :
    applyEntry (applyEntry s d).1 d = ((applyEntry s d).1, Except.ok a) ∧
    (applyEntry s d).1.ledger.length = s.ledger.length + 1 ∧
    (applyEntry s d).1.account = a := by
  have hshape := applyEntry_fresh_ok s d a hfresh hok
  have hkey : keyInLedger (applyEntry s d).1.ledger d.idempotencyKey = true := by
    rw [hshape]
    simp [keyInLedger, List.any_append, entryOfDraft]
  have hacct : (applyEntry s d).1.account = a := by rw [hshape]
  refine ⟨?_, ?_, hacct⟩
  · rw [applyEntry_replay (applyEntry s d).1 d hkey, hacct]
  · rw [hshape]
    simp

/-- C5: a fresh debit whose candidate value (balance, or `inOrder` when the
draft is a reservation entry) would go negative fails with
`InsufficientFunds`, appends no ledger entry, and leaves the account state
unchanged. -/
theorem applyEntry_insufficient (s : EngineState) (d : Draft)
    (hfresh : keyInLedger s.ledger d.idempotencyKey = false)
    (hneg : d.amount < 0)
    (hcand :
      (if d.reservation then s.account.inOrder else s.account.balance) +
        d.amount < 0) :
    applyEntry s d = (s, Except.error BalanceError.InsufficientFunds) := by
  have h0 : ¬d.amount = 0 := by omega
  unfold applyEntry
  by_cases hr : d.reservation <;>
    simp_all

/-- A debit of 8 against a balance of 10 with a fresh key succeeds and
leaves balance 2; a second serialized debit of 8 with a distinct fresh key
then fails with `InsufficientFunds` and changes nothing. -/
theorem debit_race_order (s : EngineState) (d e : Draft)
    (hbal : s.account.balance = 10)
    (hda : d.amount = -8) (hdr : d.reservation = false)
    (hea : e.amount = -8) (her : e.reservation = false)
    (hkd : keyInLedger s.ledger d.idempotencyKey = false)
    (hke : keyInLedger s.ledger e.idempotencyKey = false)
    (hne : d.idempotencyKey ≠ e.idempotencyKey) :
    (applyEntry s d).2 =
      Except.ok { s.account with balance := 2 } ∧
    (applyEntry (applyEntry s d).1 e).2 =
      Except.error BalanceError.InsufficientFunds ∧
    (applyEntry (applyEntry s d).1 e).1.account.balance = 2 := by
  have hfirst :
      applyEntry s d =
        ({ account := { s.account with balance := 2 },
           ledger := s.ledger ++ [entryOfDraft d] },
         Except.ok { s.account with balance := 2 }) := by
    unfold applyEntry
    simp [hkd, hda, hdr, hbal]
  have hkey2 :
      keyInLedger (s.ledger ++ [entryOfDraft d]) e.idempotencyKey = false := by
    simp [keyInLedger, List.any_append, entryOfDraft]
    constructor
    · simpa [keyInLedger] using hke
    · exact hne
  have hsecond :
      applyEntry { account := { s.account with balance := 2 },
                   ledger := s.ledger ++ [entryOfDraft d] } e =
        ({ account := { s.account with balance := 2 },
           ledger := s.ledger ++ [entryOfDraft d] },
         Except.error BalanceError.InsufficientFunds) := by
    unfold applyEntry
    simp [hkey2, hea, her]
  rw [hfirst]
  simp [hsecond]

/-- C8: against a balance of 10, two debits of 8 with distinct fresh keys --
serialized in either order, as the spec's per-account critical section
mandates -- yield exactly one success and one `InsufficientFunds` failure,
and the final balance is 2. -/
theorem concurrent_debit_race (s : EngineState) (d1 d2 : Draft)
    (hbal : s.account.balance = 10)
    (h1a : d1.amount = -8) (h1r : d1.reservation = false)
    (h2a : d2.amount = -8) (h2r : d2.reservation = false)
    (hk1 : keyInLedger s.ledger d1.idempotencyKey = false)
    (hk2 : keyInLedger s.ledger d2.idempotencyKey = false)
    (hne : d1.idempotencyKey ≠ d2.idempotencyKey) :
    ((applyEntry s d1).2 = Except.ok { s.account with balance := 2 } ∧
     (applyEntry (applyEntry s d1).1 d2).2 =
       Except.error BalanceError.InsufficientFunds ∧
     (applyEntry (applyEntry s d1).1 d2).1.account.balance = 2) ∧
    ((applyEntry s d2).2 = Except.ok { s.account with balance := 2 } ∧
     (applyEntry (applyEntry s d2).1 d1).2 =
       Except.error BalanceError.InsufficientFunds ∧
     (applyEntry (applyEntry s d2).1 d1).1.account.balance = 2) :=
  ⟨debit_race_order s d1 d2 hbal h1a h1r h2a h2r hk1 hk2 hne,
   debit_race_order s d2 d1 hbal h2a h2r h1a h1r hk2 hk1 (Ne.symm hne)⟩

/-- C6: `applyTransfer` conserves the sum of the source and destination
balances when it succeeds, and leaves the whole transfer state (both
accounts and the ledger) unchanged when it fails. -/
theorem applyTransfer_conservation (st : TransferState) (fd td : Draft) :
    (match applyTransfer st fd td with
     | (st', Except.ok _) =>
       st'.src.balance + st'.dst.balance = st.src.balance + st.dst.balance
     | (st', Except.error _) => st' = st) := by
  unfold applyTransfer
  split_ifs with h1 h2 h3 h4
  · rfl
  · rfl
  · rfl
  · rfl
  · have hamt : td.amount = -fd.amount := by
      push_neg at h2
      exact h2.2.2.2.2.2
    simp [hamt]
    omega

/-- C7: a successful `reserve` followed by a successful `release` of the
same amount restores the `(balance, inOrder)` pair exactly, and `reserve`
itself leaves `balance + inOrder` unchanged. -/
theorem reserve_release_roundtrip (a a' a'' : Account) (amt : Int)
    (h1 : reserve a amt = Except.ok a')
    (h2 : release a' amt = Except.ok a'') :
    a''.balance = a.balance ∧ a''.inOrder = a.inOrder ∧
    a'.balance + a'.inOrder = a.balance + a.inOrder := by
  unfold reserve at h1
  unfold release at h2
  split_ifs at h1 h2
  simp only [Except.ok.injEq] at h1 h2
  subst h1
  subst h2
  refine ⟨?_, ?_, ?_⟩ <;> simp

/-- The wallet-type parser rejects exactly the strings outside the
enumerated set. -/
theorem ofString_none_iff (wt : String) :
    WalletType.ofString wt = none ↔
      (wt ≠ "FIAT" ∧ wt ≠ "SPOT" ∧ wt ≠ "ECO" ∧ wt ≠ "FUTURES") := by
  unfold WalletType.ofString
  split <;> simp_all

/-- C4: `getOrCreate` fails if and only if the currency is empty or the
wallet-type string is outside {FIAT, SPOT, ECO, FUTURES}, every failure is a
`ValidationError`, and every success either returns the existing account for
the triple with the store unchanged or appends a fresh account with zero
balance and zero `inOrder`. -/
theorem getOrCreate_spec (st : Store) (u c wt : String) :
    ((∃ e, getOrCreate st u c wt = Except.error e) ↔
      (c = "" ∨ WalletType.ofString wt = none)) ∧
    (WalletType.ofString wt = none ↔
      (wt ≠ "FIAT" ∧ wt ≠ "SPOT" ∧ wt ≠ "ECO" ∧ wt ≠ "FUTURES")) ∧
    (∀ e, getOrCreate st u c wt = Except.error e →
      e = BalanceError.ValidationError) ∧
    (∀ st' a, getOrCreate st u c wt = Except.ok (st', a) →
      ∃ w, WalletType.ofString wt = some w ∧
        ((findAccount st u c w = some a ∧ st' = st) ∨
         (findAccount st u c w = none ∧
          a = { userId := u, currency := c, walletType := w,
                balance := 0, inOrder := 0, status := true } ∧
          st'.accounts = st.accounts ++ [a]))) := by
  refine ⟨?_, ofString_none_iff wt, ?_, ?_⟩
  · by_cases hc : c = ""
    · simp [getOrCreate, hc]
    · cases hw : WalletType.ofString wt with
      | none => simp [getOrCreate, hc, hw]
      | some w =>
        cases hf : findAccount st u c w with
        | some a => simp [getOrCreate, hc, hw, hf]
        | none => simp [getOrCreate, hc, hw, hf]
  · intro e he
    by_cases hc : c = ""
    · simp [getOrCreate, hc] at he
      exact he.symm
    · cases hw : WalletType.ofString wt with
      | none =>
        simp [getOrCreate, hc, hw] at he
        exact he.symm
      | some w =>
        cases hf : findAccount st u c w with
        | some a => simp [getOrCreate, hc, hw, hf] at he
        | none => simp [getOrCreate, hc, hw, hf] at he
  · intro st' a h
    by_cases hc : c = ""
    · simp [getOrCreate, hc] at h
    · cases hw : WalletType.ofString wt with
      | none => simp [getOrCreate, hc, hw] at h
      | some w =>
        refine ⟨w, rfl, ?_⟩
        cases hf : findAccount st u c w with
        | some b =>
          simp [getOrCreate, hc, hw, hf] at h
          exact Or.inl ⟨by rw [h.2], h.1.symm⟩
        | none =>
          simp [getOrCreate, hc, hw, hf] at h
          obtain ⟨h1, h2⟩ := h
          subst h2
          exact Or.inr ⟨rfl, rfl, by rw [← h1]⟩

/-- The balance write-back never changes the key triple of a record. -/
theorem rewriteBalances_key (u c : String) (w : WalletType) (nb nio : Int)
    (a : Account) :
    (rewriteBalances u c w nb nio a).userId = a.userId ∧
    (rewriteBalances u c w nb nio a).currency = a.currency ∧
    (rewriteBalances u c w nb nio a).walletType = a.walletType := by
  unfold rewriteBalances
  split_ifs <;> simp

/-- One store-level step preserves uniqueness of the
`(userId, currency, walletType)` triples. -/
theorem uniqueTriples_step (st : Store) (op : StoreOp)
    (h : UniqueTriples st) : UniqueTriples (runStoreOp st op) := by
  cases op with
  | createOp u c wt =>
    unfold runStoreOp
    by_cases hc : c = ""
    · simp [getOrCreate, hc]
      exact h
    · cases hw : WalletType.ofString wt with
      | none =>
        simp [getOrCreate, hc, hw]
        exact h
      | some w =>
        cases hf : findAccount st u c w with
        | some a =>
          simp [getOrCreate, hc, hw, hf]
          exact h
        | none =>
          simp [getOrCreate, hc, hw, hf]
          unfold UniqueTriples at h ⊢
          rw [List.pairwise_append]
          refine ⟨h, List.pairwise_singleton _ _, ?_⟩
          intro x hx b hb
          simp only [List.mem_singleton] at hb
          subst hb
          have hx2 := List.find?_eq_none.mp hf x hx
          simp only [decide_eq_true_eq] at hx2
          simpa using hx2
  | balanceOp u c w nb nio =>
    unfold UniqueTriples at h ⊢
    unfold runStoreOp
    refine List.Pairwise.map _ ?_ h
    intro a b hab hcon
    apply hab
    have ka := rewriteBalances_key u c w nb nio a
    have kb := rewriteBalances_key u c w nb nio b
    exact ⟨ka.1 ▸ kb.1 ▸ hcon.1, ka.2.1 ▸ kb.2.1 ▸ hcon.2.1,
           ka.2.2 ▸ kb.2.2 ▸ hcon.2.2⟩

/-- C3: distinct accounts always carry distinct
`(userId, currency, walletType)` triples: every sequence of store-level
operations (creations and balance rewrites) preserves uniqueness, so no
operation ever creates two accounts with the same triple. -/
theorem store_unique_triples (st : Store) (ops : List StoreOp)
    (h : UniqueTriples st) : UniqueTriples (runStoreOps st ops) := by
  induction ops generalizing st with
  | nil => exact h
  | cons op ops ih =>
    simpa [runStoreOps] using ih (runStoreOp st op) (uniqueTriples_step st op h)

/-- A list containing two distinct members has length at least two. -/
theorem two_le_length_of_mem {α : Type} [DecidableEq α] {l : List α}
    {a b : α} (ha : a ∈ l) (hb : b ∈ l) (hne : a ≠ b) : 2 ≤ l.length := by
  have h1 : b ∈ l.erase a := (List.mem_erase_of_ne (Ne.symm hne)).mpr hb
  have h2 : 0 < (l.erase a).length :=
    List.length_pos.mpr (List.ne_nil_of_mem h1)
  have h3 : (l.erase a).length = l.length - 1 := by
    rw [List.length_erase]
    simp [ha]
  have h4 : 0 < l.length := List.length_pos.mpr (List.ne_nil_of_mem ha)
  omega

/-- Filtering with a stronger predicate keeps at most as many elements. -/
theorem length_filter_mono {α : Type} (l : List α) (p q : α → Bool)
    (h : ∀ a, p a = true → q a = true) :
    (l.filter p).length ≤ (l.filter q).length := by
  induction l with
  | nil => simp
  | cons x xs ih =>
    by_cases hp : p x = true
    · rw [List.filter_cons_of_pos hp, List.filter_cons_of_pos (h x hp)]
      simpa using ih
    · rw [List.filter_cons_of_neg (by simpa using hp)]
      by_cases hq : q x = true
      · rw [List.filter_cons_of_pos hq]
        simp only [List.length_cons]
        omega
      · rw [List.filter_cons_of_neg (by simpa using hq)]
        exact ih


/-- Unfolding of the validator for a `true` value: the already-home early
return, then the other-home-page check. -/
theorem isUniqueHome_true_eq (db : List PageRec) (i : Nat) :
    isUniqueHome db (some i) true =
      (match findLive db i with
       | some existing =>
         if existing.isHome then true else !otherHomeExists db (some i)
       | none => !otherHomeExists db (some i)) := rfl

/-- C9: under the "at most one non-deleted home page" invariant, saving a
page flagged as home fails with the validator's error whenever some other
non-deleted page is already the home page; saving a page that is already
the home page is allowed; and every validated save preserves the
invariant. -/
theorem page_unique_home (db : List PageRec) (r : PageRec)
    (hinv : homeCount db ≤ 1) :
    (r.isHome = true → otherHomeExists db (some r.id) = true →
      savePage db r =
        Except.error ("isHome: Only one page can be marked as home page")) ∧
    (∀ p, findLive db r.id = some p → p.isHome = true →
      savePage db r = Except.ok (upsertPage db r)) ∧
    (∀ db', savePage db r = Except.ok db' → homeCount db' ≤ 1) := by
  refine ⟨?_, ?_, ?_⟩
  · intro hr hother
    obtain ⟨p, hpmem, hp⟩ := List.any_eq_true.mp hother
    simp only [Bool.and_eq_true, Bool.not_eq_true', decide_eq_false_iff_not]
      at hp
    have hfalse : isUniqueHome db (some r.id) true = false := by
      rw [isUniqueHome_true_eq]
      cases hfl : findLive db r.id with
      | none =>
        show (!otherHomeExists db (some r.id)) = false
        rw [hother]
        rfl
      | some ex =>
        show (if ex.isHome = true then true
              else !otherHomeExists db (some r.id)) = false
        have hexmem := List.mem_of_find?_eq_some hfl
        have hexpred := List.find?_some hfl
        simp only [Bool.and_eq_true, Bool.not_eq_true', decide_eq_true_eq]
          at hexpred
        by_cases hexh : ex.isHome = true
        · exfalso
          have hpin : p ∈ db.filter (fun q => q.isHome && !q.deleted) := by
            rw [List.mem_filter]
            exact ⟨hpmem, by simp [hp.1.1, hp.1.2]⟩
          have hexin : ex ∈ db.filter (fun q => q.isHome && !q.deleted) := by
            rw [List.mem_filter]
            exact ⟨hexmem, by simp [hexh, hexpred.1]⟩
          have hneq : p ≠ ex := by
            intro he
            exact hp.2 (he ▸ hexpred.2)
          have h2 := two_le_length_of_mem hpin hexin hneq
          unfold homeCount at hinv
          omega
        · rw [if_neg hexh, hother]
          rfl
    unfold savePage
    rw [hr, hfalse]
    simp
  · intro p hp hph
    cases hr : r.isHome with
    | false =>
      unfold savePage
      rw [hr]
      rfl
    | true =>
      unfold savePage
      rw [hr, isUniqueHome_true_eq, hp]
      simp [hph]
  · intro db' hok
    unfold savePage at hok
    split_ifs at hok with hv
    · simp only [Except.ok.injEq] at hok
      subst hok
      unfold homeCount upsertPage
      rw [List.filter_append, List.length_append]
      by_cases hpr : (r.isHome && !r.deleted) = true
      · simp only [Bool.and_eq_true, Bool.not_eq_true'] at hpr
        have hall : ∀ x ∈ db, x.isHome = true → x.deleted = false →
            x.id = r.id := by
          rw [hpr.1, isUniqueHome_true_eq] at hv
          have hoth : otherHomeExists db (some r.id) = false ∨
              (∃ ex, findLive db r.id = some ex ∧ ex.isHome = true) := by
            cases hfl : findLive db r.id with
            | none =>
              rw [hfl] at hv
              have hv2 : (!otherHomeExists db (some r.id)) = true := hv
              left
              simpa using hv2
            | some ex =>
              rw [hfl] at hv
              by_cases hexh : ex.isHome = true
              · exact Or.inr ⟨ex, rfl, hexh⟩
              · have hv2 : (if ex.isHome = true then true
                    else !otherHomeExists db (some r.id)) = true := hv
                rw [if_neg hexh] at hv2
                left
                simpa using hv2
          intro x hx hxh hxd
          by_contra hxid
          rcases hoth with hnone | ⟨ex, hfl, hexh⟩
          · have hcon : otherHomeExists db (some r.id) = true := by
              apply List.any_eq_true.mpr
              refine ⟨x, hx, ?_⟩
              simp [hxh, hxd, hxid]
            rw [hcon] at hnone
            exact Bool.true_eq_false.mp hnone
          · have hexmem := List.mem_of_find?_eq_some hfl
            have hexpred := List.find?_some hfl
            simp only [Bool.and_eq_true, Bool.not_eq_true',
              decide_eq_true_eq] at hexpred
            have hxin : x ∈ db.filter (fun q => q.isHome && !q.deleted) := by
              rw [List.mem_filter]
              exact ⟨hx, by simp [hxh, hxd]⟩
            have hexin : ex ∈ db.filter (fun q => q.isHome && !q.deleted) := by
              rw [List.mem_filter]
              exact ⟨hexmem, by simp [hexh, hexpred.1]⟩
            have hneq : x ≠ ex := by
              intro he
              exact hxid (he ▸ hexpred.2)
            have h2 := two_le_length_of_mem hxin hexin hneq
            unfold homeCount at hinv
            omega
        have hzero :
            (List.filter (fun p => p.isHome && !p.deleted)
              (db.filter (fun p => !decide (p.id = r.id)))).length = 0 := by
          rw [List.length_eq_zero, List.filter_eq_nil_iff]
          intro x hx
          rw [List.mem_filter] at hx
          obtain ⟨hxdb, hxne⟩ := hx
          simp only [Bool.not_eq_true', decide_eq_false_iff_not] at hxne
          simp only [Bool.and_eq_true, Bool.not_eq_true', not_and]
          intro hxh hxd
          exact hxne (hall x hxdb hxh hxd)
        rw [hzero]
        simp [List.filter_cons, hpr.1, hpr.2]
      · have hprf : (r.isHome && !r.deleted) = false := by
          simpa using hpr
        have h1 : (List.filter (fun p => p.isHome && !p.deleted) [r]).length
            = 0 := by
          simp [List.filter_cons, hprf]
        have h2 :
            (List.filter (fun p => p.isHome && !p.deleted)
              (db.filter (fun p => !decide (p.id = r.id)))).length ≤
            (List.filter (fun p => p.isHome && !p.deleted) db).length := by
          rw [List.filter_filter]
          apply length_filter_mono
          intro a ha
          simp only [Bool.and_eq_true] at ha
          simp [ha.1]
        unfold homeCount at hinv
        omega

/-- C10: the `messages` accessor pair is total at the model boundary.  The
getter returns the stored array itself, the parsed array for a JSON string
that parses to an array, and `[]` in every other case (null, undefined,
non-array values, unparseable or non-array JSON strings; the platform's
`JSON.parse` is abstract here, constrained only to reject the empty
string, which JavaScript's does).  The setter accepts exactly null,
undefined, and arrays whose every element is a message object with string
`type`, string `text` and truthy `time`, storing the value unchanged, and
throws the model's error on any other input. -/
theorem supportTicket_messages_spec (parse : String → Option JSVal)
    (hparse : parse ("") = none) (stored v : JSVal) :
    (match stored with
     | JSVal.varr xs => messagesGet parse stored = xs
     | JSVal.vstr s =>
       (∀ xs, parse s = some (JSVal.varr xs) →
         messagesGet parse stored = xs) ∧
       ((∀ xs, parse s ≠ some (JSVal.varr xs)) →
         messagesGet parse stored = [])
     | _ => messagesGet parse stored = []) ∧
    (messagesSet v = Except.ok v ↔
      (v = JSVal.vnull ∨ v = JSVal.vundef ∨
       ∃ xs, v = JSVal.varr xs ∧ xs.all validMessage = true)) ∧
    ((∃ msg, messagesSet v = Except.error msg) ↔
      ¬(v = JSVal.vnull ∨ v = JSVal.vundef ∨
        ∃ xs, v = JSVal.varr xs ∧ xs.all validMessage = true)) := by
  refine ⟨?_, ?_, ?_⟩
  · cases stored with
    | vnull => rfl
    | vundef => rfl
    | vbool b => cases b <;> rfl
    | vnum n =>
      unfold messagesGet
      split_ifs <;> rfl
    | vstr s =>
      constructor
      · intro xs hx
        by_cases hs : s = ""
        · subst hs
          rw [hparse] at hx
          exact absurd hx (by simp)
        · simp [messagesGet, truthy, hs, hx]
      · intro hnone
        by_cases hs : s = ""
        · subst hs
          unfold messagesGet
          simp [truthy]
        · unfold messagesGet
          cases hp : parse s with
          | none => simp [truthy, hs, hp]
          | some w =>
            cases w with
            | varr xs => exact absurd hp (hnone xs)
            | vnull => simp [truthy, hs, hp]
            | vundef => simp [truthy, hs, hp]
            | vbool b => simp [truthy, hs, hp]
            | vnum m => simp [truthy, hs, hp]
            | vstr t => simp [truthy, hs, hp]
            | vobj fs => simp [truthy, hs, hp]
    | varr xs => rfl
    | vobj fs => rfl
  · cases v with
    | vnull => simp [messagesSet]
    | vundef => simp [messagesSet]
    | vbool b => simp [messagesSet]
    | vnum n => simp [messagesSet]
    | vstr s => simp [messagesSet]
    | vobj fs => simp [messagesSet]
    | varr xs =>
      by_cases hall : xs.all validMessage = true
      · simp [messagesSet, hall]
        simpa using hall
      · simp [messagesSet, hall]
        simpa using hall
  · cases v with
    | vnull => simp [messagesSet]
    | vundef => simp [messagesSet]
    | vbool b => simp [messagesSet]
    | vnum n => simp [messagesSet]
    | vstr s => simp [messagesSet]
    | vobj fs => simp [messagesSet]
    | varr xs =>
      by_cases hall : xs.all validMessage = true
      · simp [messagesSet, hall]
        simpa using hall
      · simp [messagesSet, hall]
        simpa using hall

/-- Concrete instance of C1: a deposit of 100 then a withdrawal of 30
against a fresh zero account keep both fields nonnegative. -/
theorem applyAll_nonneg_witness :
    0 ≤ (applyAll
        { account := { userId := "u", currency := "USD",
                       walletType := WalletType.FIAT, balance := 0,
                       inOrder := 0, status := true },
          ledger := [] }
        [{ idempotencyKey := "d1", amount := 100, kind := EntryKind.DEPOSIT,
           reservation := false },
         { idempotencyKey := "w1", amount := -30,
           kind := EntryKind.WITHDRAWAL,
           reservation := false }]).account.balance ∧
    0 ≤ (applyAll
        { account := { userId := "u", currency := "USD",
                       walletType := WalletType.FIAT, balance := 0,
                       inOrder := 0, status := true },
          ledger := [] }
        [{ idempotencyKey := "d1", amount := 100, kind := EntryKind.DEPOSIT,
           reservation := false },
         { idempotencyKey := "w1", amount := -30,
           kind := EntryKind.WITHDRAWAL,
           reservation := false }]).account.inOrder :=
  applyAll_nonneg _ _ (by decide) (by decide)

/-- Concrete instance of C2: replaying a committed deposit is a no-op. -/
theorem applyEntry_idempotent_witness :
    applyEntry
        (applyEntry
          { account := { userId := "u", currency := "USD",
                         walletType := WalletType.FIAT, balance := 0,
                         inOrder := 0, status := true },
            ledger := [] }
          { idempotencyKey := "d1", amount := 100,
            kind := EntryKind.DEPOSIT, reservation := false }).1
        { idempotencyKey := "d1", amount := 100,
          kind := EntryKind.DEPOSIT, reservation := false } =
      ((applyEntry
          { account := { userId := "u", currency := "USD",
                         walletType := WalletType.FIAT, balance := 0,
                         inOrder := 0, status := true },
            ledger := [] }
          { idempotencyKey := "d1", amount := 100,
            kind := EntryKind.DEPOSIT, reservation := false }).1,
       Except.ok { userId := "u", currency := "USD",
                   walletType := WalletType.FIAT, balance := 100,
                   inOrder := 0, status := true }) ∧
    (applyEntry
        { account := { userId := "u", currency := "USD",
                       walletType := WalletType.FIAT, balance := 0,
                       inOrder := 0, status := true },
          ledger := [] }
        { idempotencyKey := "d1", amount := 100,
          kind := EntryKind.DEPOSIT,
          reservation := false }).1.ledger.length =
      ([] : List LedgerEntry).length + 1 ∧
    (applyEntry
        { account := { userId := "u", currency := "USD",
                       walletType := WalletType.FIAT, balance := 0,
                       inOrder := 0, status := true },
          ledger := [] }
        { idempotencyKey := "d1", amount := 100,
          kind := EntryKind.DEPOSIT, reservation := false }).1.account =
      { userId := "u", currency := "USD", walletType := WalletType.FIAT,
        balance := 100, inOrder := 0, status := true } :=
  applyEntry_idempotent _ _ _ (by rfl) (by rfl)

/-- Concrete instance of C3: creating the same triple twice and a second
distinct triple keeps the store's triples unique. -/
theorem store_unique_triples_witness :
    UniqueTriples (runStoreOps { accounts := [] }
      [StoreOp.createOp ("u") ("USD") ("FIAT"),
       StoreOp.createOp ("u") ("USD") ("FIAT"),
       StoreOp.createOp ("u") ("BTC") ("SPOT")]) :=
  store_unique_triples _ _ (by simp [UniqueTriples])

/-- Concrete instance of C5: a withdrawal of 20 against a balance of 10 is
rejected without a trace. -/
theorem applyEntry_insufficient_witness :
    applyEntry
        { account := { userId := "u", currency := "USD",
                       walletType := WalletType.FIAT, balance := 10,
                       inOrder := 0, status := true },
          ledger := [] }
        { idempotencyKey := "w1", amount := -20,
          kind := EntryKind.WITHDRAWAL, reservation := false } =
      ({ account := { userId := "u", currency := "USD",
                      walletType := WalletType.FIAT, balance := 10,
                      inOrder := 0, status := true },
         ledger := [] },
       Except.error BalanceError.InsufficientFunds) :=
  applyEntry_insufficient _ _ (by rfl) (by decide) (by decide)

/-- Concrete instance of C7: reserving 10 out of a balance of 10 and
releasing it restores the original pair. -/
theorem reserve_release_roundtrip_witness :
    ({ userId := "u", currency := "USD", walletType := WalletType.FIAT,
       balance := 10, inOrder := 0, status := true } : Account).balance =
      ({ userId := "u", currency := "USD", walletType := WalletType.FIAT,
         balance := 10, inOrder := 0, status := true } : Account).balance ∧
    ({ userId := "u", currency := "USD", walletType := WalletType.FIAT,
       balance := 10, inOrder := 0, status := true } : Account).inOrder =
      ({ userId := "u", currency := "USD", walletType := WalletType.FIAT,
         balance := 10, inOrder := 0, status := true } : Account).inOrder ∧
    ({ userId := "u", currency := "USD", walletType := WalletType.FIAT,
       balance := 0, inOrder := 10, status := true } : Account).balance +
      ({ userId := "u", currency := "USD", walletType := WalletType.FIAT,
         balance := 0, inOrder := 10, status := true } : Account).inOrder =
      ({ userId := "u", currency := "USD", walletType := WalletType.FIAT,
         balance := 10, inOrder := 0, status := true } : Account).balance +
      ({ userId := "u", currency := "USD", walletType := WalletType.FIAT,
         balance := 10, inOrder := 0, status := true } : Account).inOrder :=
  reserve_release_roundtrip
    { userId := "u", currency := "USD", walletType := WalletType.FIAT,
      balance := 10, inOrder := 0, status := true }
    { userId := "u", currency := "USD", walletType := WalletType.FIAT,
      balance := 0, inOrder := 10, status := true }
    { userId := "u", currency := "USD", walletType := WalletType.FIAT,
      balance := 10, inOrder := 0, status := true }
    10 (by rfl) (by rfl)

/-- Concrete instance of C8: two serialized debits of 8 against a balance
of 10 with keys k1 and k2. -/
theorem concurrent_debit_race_witness :
    (((applyEntry
        { account := { userId := "u", currency := "USD",
                       walletType := WalletType.FIAT, balance := 10,
                       inOrder := 0, status := true },
          ledger := [] }
        { idempotencyKey := "k1", amount := -8, kind := EntryKind.TRADE,
          reservation := false }).2 =
      Except.ok { userId := "u", currency := "USD",
                  walletType := WalletType.FIAT, balance := 2,
                  inOrder := 0, status := true }) ∧
     (applyEntry (applyEntry
        { account := { userId := "u", currency := "USD",
                       walletType := WalletType.FIAT, balance := 10,
                       inOrder := 0, status := true },
          ledger := [] }
        { idempotencyKey := "k1", amount := -8, kind := EntryKind.TRADE,
          reservation := false }).1
        { idempotencyKey := "k2", amount := -8, kind := EntryKind.TRADE,
          reservation := false }).2 =
       Except.error BalanceError.InsufficientFunds ∧
     (applyEntry (applyEntry
        { account := { userId := "u", currency := "USD",
                       walletType := WalletType.FIAT, balance := 10,
                       inOrder := 0, status := true },
          ledger := [] }
        { idempotencyKey := "k1", amount := -8, kind := EntryKind.TRADE,
          reservation := false }).1
        { idempotencyKey := "k2", amount := -8, kind := EntryKind.TRADE,
          reservation := false }).1.account.balance = 2) ∧
    (((applyEntry
        { account := { userId := "u", currency := "USD",
                       walletType := WalletType.FIAT, balance := 10,
                       inOrder := 0, status := true },
          ledger := [] }
        { idempotencyKey := "k2", amount := -8, kind := EntryKind.TRADE,
          reservation := false }).2 =
      Except.ok { userId := "u", currency := "USD",
                  walletType := WalletType.FIAT, balance := 2,
                  inOrder := 0, status := true }) ∧
     (applyEntry (applyEntry
        { account := { userId := "u", currency := "USD",
                       walletType := WalletType.FIAT, balance := 10,
                       inOrder := 0, status := true },
          ledger := [] }
        { idempotencyKey := "k2", amount := -8, kind := EntryKind.TRADE,
          reservation := false }).1
        { idempotencyKey := "k1", amount := -8, kind := EntryKind.TRADE,
          reservation := false }).2 =
       Except.error BalanceError.InsufficientFunds ∧
     (applyEntry (applyEntry
        { account := { userId := "u", currency := "USD",
                       walletType := WalletType.FIAT, balance := 10,
                       inOrder := 0, status := true },
          ledger := [] }
        { idempotencyKey := "k2", amount := -8, kind := EntryKind.TRADE,
          reservation := false }).1
        { idempotencyKey := "k1", amount := -8, kind := EntryKind.TRADE,
          reservation := false }).1.account.balance = 2) :=
  concurrent_debit_race _ _ _ (by rfl) (by rfl) (by rfl) (by rfl) (by rfl)
    (by rfl) (by rfl) (by decide)

/-- Concrete instance of C9: with page 1 as the home page, saving a new
page 2 flagged as home is rejected with the validator's error. -/
theorem page_unique_home_witness :
    homeCount [{ id := 1, isHome := true, deleted := false }] ≤ 1 ∧
    savePage [{ id := 1, isHome := true, deleted := false }]
        { id := 2, isHome := true, deleted := false } =
      Except.error ("isHome: Only one page can be marked as home page") :=
  ⟨by decide,
   (page_unique_home [{ id := 1, isHome := true, deleted := false }]
      { id := 2, isHome := true, deleted := false }
      (by decide)).1 (by decide) (by decide)⟩

/-- Concrete instance of C10: with a parser that rejects everything, a
stored null reads as the empty message list. -/
theorem supportTicket_messages_witness :
    (fun _ : String => (none : Option JSVal)) ("") = none ∧
    messagesGet (fun _ => none) JSVal.vnull = [] :=
  ⟨rfl,
   ((supportTicket_messages_spec (fun _ => none) rfl JSVal.vnull
      JSVal.vnull).1 :
     messagesGet (fun _ => none) JSVal.vnull = [])⟩
